import Mathlib

/-!
Verification of the HomelyHelper room-layout model (src/main.py).

The Python source is a PyQt6 application.  This file gives a shallow
embedding of its layout model: the pure unit-conversion helpers, the
data classes `Furniture` and `DoorWindow`, the graphics items
(`FurnitureItem` and `DoorItem`) reduced to their model-relevant state
(display position, display rect, rotation, and the per-item `scale`
attribute), the planner state of `RoomPlanner`, and the operations the
frozen claims talk about.  Machine floats are embedded as rationals,
so every arithmetic identity of the source holds exactly here; JSON
documents are embedded as an inductive `JVal` tree mirroring what
Python `json.load` produces.

Qt behaviour that the source relies on is embedded explicitly:
`QGraphicsItem.setPos` on an item with the `ItemSendsGeometryChanges`
flag synchronously sends `ItemPositionChange` (where
`FurnitureItem.itemChange` clamps when `snap_to_borders` is set) and,
if the position actually changed, `ItemPositionHasChanged` (where the
model coordinates `x_m`, `y_m` are re-derived from the display
position using the item's own `scale` attribute).  `QDoubleSpinBox`
`setValue` clamps to the range installed with `setRange`.
-/

namespace HomelyHelper

/-! ### Unit conversion (src/main.py lines 126-139) -/

/-- Embedding of `_UNIT_FACTORS`: metres per unit, `none` for an
unsupported token (a Python `KeyError`). -/
def unitFactors (u : String) : Option ℚ :=
  if u = "m" then some 1
  else if u = "ft" then some (3048 / 10000)
  else if u = "in" then some (254 / 10000)
  else none

/-- Embedding of `to_m(value, unit)`. -/
def to_m (value : ℚ) (unit : String) : Option ℚ :=
  (unitFactors unit).map (fun f => value * f)

/-- Embedding of `from_m(value_m, unit)`. -/
def from_m (value_m : ℚ) (unit : String) : Option ℚ :=
  (unitFactors unit).map (fun f => value_m / f)

/-- The three options offered by every unit combo box in the UI
(`addItems(["m", "ft", "in"])`); the combo can hold nothing else. -/
inductive UnitSel where
  | m | ft | inch
deriving DecidableEq

/-- The string token a `UnitSel` shows as (`currentText()`). -/
def UnitSel.str : UnitSel → String
  | .m => "m"
  | .ft => "ft"
  | .inch => "in"

/-- Conversion factor of a combo-box unit. -/
def UnitSel.factor : UnitSel → ℚ
  | .m => 1
  | .ft => 3048 / 10000
  | .inch => 254 / 10000

/-- Total `to_m` for a unit known to come from a combo box. -/
def toMSel (value : ℚ) (u : UnitSel) : ℚ := value * u.factor

/-- Total `from_m` for a unit known to come from a combo box. -/
def fromMSel (value_m : ℚ) (u : UnitSel) : ℚ := value_m / u.factor

/-! ### Decimal rendering of a counter

Python renders counters with `f"Door {n}"` style f-strings, i.e. the
decimal digits of `n`.  `decString` is that decimal rendering. -/

/-- The ASCII character of a decimal digit. -/
def digitChar (d : Nat) : Char := Char.ofNat (48 + d)

/-- Decimal rendering of a natural number, as Python `str(n)`. -/
def decString (n : Nat) : String :=
  if n = 0 then "0" else String.mk (((Nat.digits 10 n).reverse).map digitChar)

/-! ### Colours

`QColor.name()` renders a colour as a lowercase `#rrggbb` string and
`QColor(s)` parses it back; the persistence layer stores colours in
that form. -/

/-- The RGB state of a `QColor` (components are bytes). -/
structure Colour where
  r : Nat
  g : Nat
  b : Nat
deriving DecidableEq

/-- Lowercase hexadecimal digit character. -/
def hexDigitChar (d : Nat) : Char :=
  Char.ofNat (if d < 10 then 48 + d else 87 + d)

/-- Numeric value of a lowercase hexadecimal digit character. -/
def hexVal (c : Char) : Nat :=
  if 48 ≤ c.toNat ∧ c.toNat ≤ 57 then c.toNat - 48
  else if 97 ≤ c.toNat ∧ c.toNat ≤ 102 then c.toNat - 87
  else 0

/-- Embedding of `QColor.name()`: the `#rrggbb` lowercase hex form. -/
def colourName (c : Colour) : String :=
  String.mk [Char.ofNat 35,
    hexDigitChar (c.r / 16), hexDigitChar (c.r % 16),
    hexDigitChar (c.g / 16), hexDigitChar (c.g % 16),
    hexDigitChar (c.b / 16), hexDigitChar (c.b % 16)]

/-- Embedding of `QColor(s)` on a `#rrggbb` name; any other string
yields the default (invalid-colour) black, and never raises. -/
def colourOfName (s : String) : Colour :=
  match s.data with
  | [h, r1, r2, g1, g2, b1, b2] =>
      if h = Char.ofNat 35 then
        ⟨16 * hexVal r1 + hexVal r2, 16 * hexVal g1 + hexVal g2,
         16 * hexVal b1 + hexVal b2⟩
      else ⟨0, 0, 0⟩
  | _ => ⟨0, 0, 0⟩

/-! ### Data-model classes (src/main.py lines 144-162) -/

/-- Embedding of the `Furniture` dataclass. -/
structure Furniture where
  name : String
  width_m : ℚ
  depth_m : ℚ
  colour : Colour
  x_m : ℚ := 0
  y_m : ℚ := 0
  rotDeg : ℚ := 0
deriving DecidableEq

/-- Embedding of the `DoorWindow` dataclass. -/
structure DoorWindow where
  name : String
  width_m : ℚ
  thickness_m : ℚ
  x_m : ℚ := 0
  y_m : ℚ := 0
  is_door : Bool := true
deriving DecidableEq

/-- The clipboard dict built by `RoomPlanner.copy_furniture`. -/
structure Clipboard where
  name : String
  width_m : ℚ
  depth_m : ℚ
  colour : Colour
  rotDeg : ℚ
deriving DecidableEq

/-- Model-relevant state of a `FurnitureItem` graphics item: the owned
`Furniture` record, the item's `scale` attribute, its display position
(`pos()`), its unrotated display rect (`rect()` width and height), and
the rotation transform installed with `setRotation`. -/
structure FurnItem where
  furn : Furniture
  scale : ℚ
  pos_x : ℚ
  pos_y : ℚ
  rect_w : ℚ
  rect_h : ℚ
  rotItem : ℚ
deriving DecidableEq

/-- Model-relevant state of a `DoorItem` graphics item (used for both
doors and windows).  `DoorItem` does not enable
`ItemSendsGeometryChanges`, so its `door_window` record is never
re-synchronised from its display position. -/
structure DoorItemG where
  door_window : DoorWindow
  scale : ℚ
  pos_x : ℚ
  pos_y : ℚ
  rect_w : ℚ
  rect_h : ℚ
deriving DecidableEq

/-- An entry of the right-hand list widget: each `QListWidgetItem`
carries either a `Furniture` or a `DoorWindow` in its user-role data
(see `on_add_furniture`, `_add_door_to_list`). -/
inductive ListEntry where
  | furn (f : Furniture)
  | door (d : DoorWindow)
deriving DecidableEq

/-- The name a list entry answers to in `_name_exists`. -/
def ListEntry.name : ListEntry → String
  | .furn f => f.name
  | .door d => d.name

/-- The model-relevant state of `RoomPlanner`.

The typed fields mirror the Python attributes on every path that keeps
them at their attribute's usual type.  Python itself enforces no such
typing: `load_layout` and `_load_cached_room` assign raw JSON values
to the five room attributes before anything checks them, so after
loading a hand-edited file the program's `room_width_m` can hold, say,
a string.  A record with rational fields cannot carry such a state, so
it is made explicit instead: whenever an assignment puts a value of
the wrong type into a room attribute, the attribute's name is appended
to `ill_typed_attrs` and its typed field here goes stale (it keeps its
previous value, which no longer reflects the program).  On every state
with `ill_typed_attrs = []` the typed fields are exact. -/
structure Planner where
  room_name : String
  room_width_m : ℚ
  room_depth_m : ℚ
  current_floor_texture : String
  show_room_border : Bool
  snap_to_borders : Bool
  pixels_per_m : ℚ
  furniture_items : List FurnItem
  door_items : List DoorItemG
  list_items : List ListEntry
  door_counter : Nat
  window_counter : Nat
  ill_typed_attrs : List String := []
deriving DecidableEq

/-! ### FurnitureItem geometry protocol (src/main.py lines 285-511) -/

/-- Embedding of the boundary constraint of `FurnitureItem.itemChange`
(lines 485-496): each axis is clamped independently to keep the
unrotated display rect inside the room display rect, saturating at 0. -/
def clampPos (roomWpx roomDpx itemW itemH px py : ℚ) : ℚ × ℚ :=
  (max 0 (min px (roomWpx - itemW)), max 0 (min py (roomDpx - itemH)))

/-- Embedding of `QGraphicsItem.setPos` on a `FurnitureItem`: if the
requested position equals the current one nothing happens; otherwise
`itemChange(ItemPositionChange)` may clamp it (when `snap` is set,
using the planner room dimensions and the item's own `scale`
attribute), and if the adjusted position still differs from the
current one it is installed and `itemChange(ItemPositionHasChanged)`
re-derives `furn.x_m`, `furn.y_m` from it, again via the item's own
`scale` attribute. -/
def FurnItem.setPos (snap : Bool) (roomW roomD : ℚ) (it : FurnItem)
    (px py : ℚ) : FurnItem :=
  if px = it.pos_x ∧ py = it.pos_y then it
  else
    let q :=
      if snap then
        clampPos (roomW * it.scale) (roomD * it.scale) it.rect_w it.rect_h px py
      else (px, py)
    if q.1 = it.pos_x ∧ q.2 = it.pos_y then it
    else
      { it with
          pos_x := q.1, pos_y := q.2,
          furn := { it.furn with x_m := q.1 / it.scale, y_m := q.2 / it.scale } }

/-- Embedding of `FurnitureItem.__init__`: rect sized from the model
dimensions at the given scale, position at the origin, rotation
installed from the stored model rotation. -/
def mkFurnItem (furn : Furniture) (scale : ℚ) : FurnItem :=
  { furn := furn, scale := scale, pos_x := 0, pos_y := 0,
    rect_w := furn.width_m * scale, rect_h := furn.depth_m * scale,
    rotItem := furn.rotDeg }

/-- Python float modulo with a positive modulus (`x % m`). -/
def pymod (x m : ℚ) : ℚ := x - m * ⌊x / m⌋

/-- Embedding of `FurnitureItem.rotate_90` (lines 437-446). -/
def FurnItem.rotate90 (it : FurnItem) : FurnItem :=
  let r := pymod (it.furn.rotDeg + 90) 360
  { it with furn := { it.furn with rotDeg := r }, rotItem := r }

/-- Embedding of `DoorItem.__init__` (lines 164-183). -/
def mkDoorItem (dw : DoorWindow) (scale : ℚ) : DoorItemG :=
  { door_window := dw, scale := scale, pos_x := 0, pos_y := 0,
    rect_w := dw.width_m * scale, rect_h := dw.thickness_m * scale }

/-- Plain `setPos` on a `DoorItem`: no geometry-change notifications
are enabled, so only the display position moves. -/
def DoorItemG.setPos (it : DoorItemG) (px py : ℚ) : DoorItemG :=
  { it with pos_x := px, pos_y := py }

/-! ### Default-name allocation (src/main.py lines 1522-1609) -/

/-- Embedding of `RoomPlanner._name_exists`: a membership scan over
the combined furniture-plus-opening entries of the list widget. -/
def nameExists (entries : List ListEntry) (name : String) : Bool :=
  entries.any (fun e => e.name == name)

/-- The category default name, `f"Door {n}"` or `f"Window {n}"`. -/
def catName (isDoor : Bool) (n : Nat) : String :=
  (if isDoor then "Door " else "Window ") ++ decString n

/-- One-step-bounded embedding of the probing loop
`while self._name_exists(f"Door {self.door_counter}"):
self.door_counter += 1`.  The fuel argument only bounds the search;
`nextCounter` supplies enough fuel for the loop to always exit on a
free name. -/
def probeCounter (entries : List ListEntry) (isDoor : Bool) :
    Nat → Nat → Nat
  | c, 0 => c
  | c, fuel + 1 =>
      if nameExists entries (catName isDoor c) then
        probeCounter entries isDoor (c + 1) fuel
      else c

/-- The counter value at which the probing loop of
`add_door`/`add_window` stops: the first value from `c` upward whose
category name is absent from the list. -/
def nextCounter (entries : List ListEntry) (isDoor : Bool) (c : Nat) : Nat :=
  probeCounter entries isDoor c (entries.length + 1)

/-! ### JSON documents and the persistence layer
(src/main.py lines 1376-1481, 1785-1872) -/

/-- A parsed JSON value, as produced by Python `json.load`. -/
inductive JVal where
  | jnum (q : ℚ)
  | jstr (s : String)
  | jbool (b : Bool)
  | jarr (xs : List JVal)
  | jobj (kvs : List (String × JVal))
  | jnull

/-- Python `dict` lookup returning `none` when the key is absent. -/
def jget (kvs : List (String × JVal)) (k : String) : Option JVal :=
  (kvs.find? (fun kv => kv.1 == k)).map (fun kv => kv.2)

/-- The floor-texture identifiers of `FloorTexture.TEXTURES`; any
other value makes `_apply_theme` raise a `KeyError`. -/
def floorTextureKeys : List String :=
  ["None", "Hardwood", "Carpet", "Tile", "Concrete"]

/-- Embedding of the furniture-entry dict written by `save_layout`
(and identically by `_cache_current_room`). -/
def encodeFurn (it : FurnItem) : JVal :=
  .jobj [("name", .jstr it.furn.name),
         ("width_m", .jnum it.furn.width_m),
         ("depth_m", .jnum it.furn.depth_m),
         ("colour", .jstr (colourName it.furn.colour)),
         ("x_m", .jnum it.furn.x_m),
         ("y_m", .jnum it.furn.y_m),
         ("rotation", .jnum it.furn.rotDeg)]

/-- Embedding of the `layout_data` document built by `save_layout`
(lines 1385-1407); writing it to disk is the I/O part of the handler. -/
def saveLayoutData (s : Planner) : JVal :=
  .jobj [("room", .jobj [("name", .jstr s.room_name),
                         ("width_m", .jnum s.room_width_m),
                         ("depth_m", .jnum s.room_depth_m),
                         ("floor_texture", .jstr s.current_floor_texture),
                         ("show_border", .jbool s.show_room_border)]),
         ("furniture", .jarr (s.furniture_items.map encodeFurn))]

/-- Embedding of `RoomPlanner.new_room` (lines 1676-1685): all scene
and list entities are discarded and the name counters reset; the
canonical room fields are not touched. -/
def newRoom (s : Planner) : Planner :=
  { s with furniture_items := [], door_items := [], list_items := [],
           door_counter := 1, window_counter := 1 }

/-- Decoding of one furniture entry of a loaded document, mirroring
the loop body of `load_layout` (lines 1452-1467): the required keys
are read with `furn_data[...]` (a missing key raises `KeyError`, and a
value whose type the later code cannot consume raises there; both are
modelled as `none`), `rotation` falls back to `0.0`, the item is
created at the planner scale and `setPos` moves it to the stored
position in display space. -/
def decodeFurn (ppm : ℚ) (snap : Bool) (roomW roomD : ℚ) (j : JVal) :
    Option FurnItem :=
  match j with
  | .jobj kvs =>
      match jget kvs "name", jget kvs "width_m", jget kvs "depth_m",
            jget kvs "colour", jget kvs "x_m", jget kvs "y_m" with
      | some (.jstr name), some (.jnum w), some (.jnum d),
        some (.jstr col), some (.jnum x), some (.jnum y) =>
          match jget kvs "rotation" with
          | some (.jnum r) =>
              let furn : Furniture :=
                ⟨name, w, d, colourOfName col, x, y, r⟩
              some ((mkFurnItem furn ppm).setPos snap roomW roomD
                      (x * ppm) (y * ppm))
          | none =>
              let furn : Furniture :=
                ⟨name, w, d, colourOfName col, x, y, 0⟩
              some ((mkFurnItem furn ppm).setPos snap roomW roomD
                      (x * ppm) (y * ppm))
          | some _ => none
      | _, _, _, _, _, _ => none
  | _ => none

/-- Decoding of the furniture array: entries are appended one by one,
and the first failing entry aborts the loop with the prefix decoded so
far kept (the raised exception lands in the handler's `except`). -/
def decodeFurnList (ppm : ℚ) (snap : Bool) (roomW roomD : ℚ) :
    List JVal → List FurnItem × Bool
  | [] => ([], true)
  | x :: xs =>
      match decodeFurn ppm snap roomW roomD x with
      | none => ([], false)
      | some it =>
          let rest := decodeFurnList ppm snap roomW roomD xs
          (it :: rest.1, rest.2)

/-- One string-attribute assignment of the room-loading block: the
value Python's `room_data.get` produced is assigned unconditionally,
whatever its type.  A JSON string lands in the typed field; any other
value puts the attribute into the ill-typed state recorded by
`ill_typed_attrs` (the stale previous typed value is returned only
because the record must hold something). -/
def assignStr (attr : String) (j : JVal) (cur : String) :
    String × List String :=
  match j with
  | .jstr v => (v, [])
  | _ => (cur, [attr])

/-- One numeric-attribute assignment of the room-loading block; same
convention as `assignStr`. -/
def assignNum (attr : String) (j : JVal) (cur : ℚ) : ℚ × List String :=
  match j with
  | .jnum v => (v, [])
  | _ => (cur, [attr])

/-- One boolean-attribute assignment of the room-loading block; same
convention as `assignStr`. -/
def assignBool (attr : String) (j : JVal) (cur : Bool) :
    Bool × List String :=
  match j with
  | .jbool v => (v, [])
  | _ => (cur, [attr])

/-- The five room-attribute assignments shared by `load_layout`
(main.py lines 1434-1438) and `_load_cached_room` (lines 1828-1832),
parameterised by the fallbacks the two paths pass to `.get` (the
floor-texture and border fallbacks are `'None'` and `True` in both).
All five assignments run before any type error can fire — Python only
raises at the widget updates that follow (lines 1441-1445 resp.
1835-1839) — so values of the wrong type are all assigned (and
recorded in `ill_typed_attrs`) first.  The returned flag says whether
every value had the expected type: when it is false the subsequent
widget updates raise, and the handler stops with exactly this
state. -/
def loadRoomFields (s1 : Planner) (r : List (String × JVal))
    (nameDef : String) (widthDef depthDef : ℚ) : Planner × Bool :=
  let nm := assignStr "room_name" ((jget r "name").getD (.jstr nameDef))
    s1.room_name
  let w := assignNum "room_width_m"
    ((jget r "width_m").getD (.jnum widthDef)) s1.room_width_m
  let d := assignNum "room_depth_m"
    ((jget r "depth_m").getD (.jnum depthDef)) s1.room_depth_m
  let tex := assignStr "current_floor_texture"
    ((jget r "floor_texture").getD (.jstr "None")) s1.current_floor_texture
  let border := assignBool "show_room_border"
    ((jget r "show_border").getD (.jbool true)) s1.show_room_border
  let ill := nm.2 ++ w.2 ++ d.2 ++ tex.2 ++ border.2
  ({ s1 with room_name := nm.1, room_width_m := w.1, room_depth_m := d.1,
             current_floor_texture := tex.1, show_room_border := border.1,
             ill_typed_attrs := s1.ill_typed_attrs ++ ill },
   ill.isEmpty)

/-- The furniture-loading loop shared by `load_layout`
(main.py lines 1452-1476) and `_load_cached_room` (lines 1845-1869):
the `furniture` array (default empty) is decoded entry by entry at the
current scale against the just-loaded room, the decoded prefix is
appended to the scene, the tracking list and the list widget, and the
flag reports whether the whole array decoded. -/
def loadFurnPart (s5 : Planner) (kvs : List (String × JVal)) :
    Planner × Bool :=
  let farr :=
    match jget kvs "furniture" with
    | some (.jarr xs) => some xs
    | none => some []
    | some _ => none
  match farr with
  | none => (s5, false)
  | some xs =>
      let dec := decodeFurnList s5.pixels_per_m s5.snap_to_borders
        s5.room_width_m s5.room_depth_m xs
      ({ s5 with furniture_items := s5.furniture_items ++ dec.1,
                 list_items := s5.list_items ++
                   dec.1.map (fun it => ListEntry.furn it.furn) },
       dec.2)

/-- Embedding of `RoomPlanner.load_layout` (lines 1417-1481).  The
input is `none` when the file could not be read or parsed (the
exception fires before any mutation).  On a parsed document the
handler first runs `new_room()`; a non-dict document or a non-dict
`room` value raises at the `.get` calls, before any field assignment.
Otherwise the five room attributes are assigned unconditionally via
`loadRoomFields`, and only then can a type error fire, at the widget
updates — aborting with all five assignments already in place; with
well-typed fields, `_apply_theme` raises `KeyError` when the loaded
floor texture is not a `FloorTexture.TEXTURES` key, and finally the
furniture array is decoded.  Every exception is caught and reported,
leaving whatever partial state had been built.  Returns the resulting
state and whether the load succeeded. -/
def loadLayout (s : Planner) (doc : Option JVal) : Planner × Bool :=
  match doc with
  | none => (s, false)
  | some j =>
      let s1 := newRoom s
      match j with
      | .jobj kvs =>
          let rkvs :=
            match jget kvs "room" with
            | some (.jobj r) => some r
            | none => some []
            | some _ => none
          match rkvs with
          | none => (s1, false)
          | some r =>
              let fr := loadRoomFields s1 r "My Room" 5 4
              if fr.2 then
                if fr.1.current_floor_texture ∈ floorTextureKeys then
                  loadFurnPart fr.1 kvs
                else (fr.1, false)
              else (fr.1, false)
      | _ => (s1, false)

/-- Embedding of `RoomPlanner._load_cached_room` (lines 1817-1872):
like `load_layout` but the blob comes from the settings store, the
name/width/depth fallbacks are the current values, `new_room` is NOT
called (entities are appended to whatever is present), no
`_apply_theme` runs (an unknown floor-texture string does not abort),
and every failure is swallowed.  A wrong-typed room value is assigned
all the same (recorded in `ill_typed_attrs`) before the swallowed
widget-update raise stops the restore.  `none` models an absent or
unparseable cache. -/
def loadCachedRoom (s : Planner) (blob : Option JVal) : Planner :=
  match blob with
  | none => s
  | some j =>
      match j with
      | .jobj kvs =>
          let rkvs :=
            match jget kvs "room" with
            | some (.jobj r) => some r
            | none => some []
            | some _ => none
          match rkvs with
          | none => s
          | some r =>
              let fr := loadRoomFields s r s.room_name s.room_width_m
                s.room_depth_m
              if fr.2 then (loadFurnPart fr.1 kvs).1 else fr.1
      | _ => s

/-! ### Planner operations (src/main.py lines 803-1735) -/

/-- The model-relevant state installed by `RoomPlanner.__init__`
(lines 810-833): the 16 ft by 12 ft default room, imperial display
units, scale 60 px/m, snapping off, counters at 1. -/
def initPlanner : Planner :=
  { room_name := "My Room",
    room_width_m := toMSel 16 .ft,
    room_depth_m := toMSel 12 .ft,
    current_floor_texture := "None",
    show_room_border := true,
    snap_to_borders := false,
    pixels_per_m := 60,
    furniture_items := [], door_items := [], list_items := [],
    door_counter := 1, window_counter := 1 }

/-- Embedding of `QDoubleSpinBox.setValue` for a spin box whose range
was installed with `setRange(1, 1000)`: the value is clamped to the
range. -/
def spinSetValue (v : ℚ) : ℚ := max 1 (min v 1000)

/-- Embedding of `RoomPlanner.on_room_apply` (lines 1265-1268): the
canonical room dimensions are recomputed from the spin values and
their unit combos; the room display rect is redrawn. -/
def onRoomApply (s : Planner) (wVal dVal : ℚ) (wUnit dUnit : UnitSel) :
    Planner :=
  { s with room_width_m := toMSel wVal wUnit,
           room_depth_m := toMSel dVal dUnit }

/-- Embedding of `RoomPlanner.on_add_furniture` (lines 1279-1299): an
empty name field falls back to an `Item {count+1}` default computed
from the list-widget length (which counts doors and windows too, and
is not checked against existing names); the piece is created at the
origin with the current scale and appended to the scene, the tracking
list and the list widget. -/
def onAddFurniture (s : Planner) (nameField : String) (wVal dVal : ℚ)
    (wUnit dUnit : UnitSel) (colour : Colour) : Planner :=
  let name :=
    if nameField = "" then "Item " ++ decString (s.list_items.length + 1)
    else nameField
  let furn : Furniture :=
    ⟨name, toMSel wVal wUnit, toMSel dVal dUnit, colour, 0, 0, 0⟩
  let item := mkFurnItem furn s.pixels_per_m
  { s with furniture_items := s.furniture_items ++ [item],
           list_items := s.list_items ++ [ListEntry.furn furn] }

/-- Embedding of `RoomPlanner.copy_furniture` (lines 1301-1309). -/
def copyFurniture (f : Furniture) : Clipboard :=
  ⟨f.name, f.width_m, f.depth_m, f.colour, f.rotDeg⟩

/-- Embedding of `RoomPlanner.paste_furniture` with `pos=None`, i.e.
`paste_furniture_center` (lines 1319-1365): a new piece named
`{name} (Copy)` is built from the clipboard, its item is placed at the
centre of the room display rect (the placement `setPos` runs the full
geometry protocol, snapping included), and the model position is then
overwritten from the unclamped centre coordinates. -/
def pasteFurnitureCenter (s : Planner) (cb : Clipboard) : Planner :=
  let furn : Furniture :=
    ⟨cb.name ++ " (Copy)", cb.width_m, cb.depth_m, cb.colour, 0, 0, cb.rotDeg⟩
  let item := mkFurnItem furn s.pixels_per_m
  let cx := s.room_width_m * s.pixels_per_m / 2
  let cy := s.room_depth_m * s.pixels_per_m / 2
  let item := item.setPos s.snap_to_borders s.room_width_m s.room_depth_m cx cy
  let item := { item with furn :=
    { item.furn with x_m := cx / s.pixels_per_m, y_m := cy / s.pixels_per_m } }
  { s with furniture_items := s.furniture_items ++ [item],
           list_items := s.list_items ++ [ListEntry.furn item.furn] }

/-- Embedding of `RoomPlanner._set_canvas_scale` (lines 1712-1735),
the rescale operation.  `pixels_per_m` is updated and the room rect
redrawn; then each tracked furniture item has its rect resized, is
`setPos`ed to the model position times the NEW scale while its own
`scale` attribute still holds the OLD value (only afterwards is the
attribute updated), and its rotation reinstalled.  The `door_items`
list is not visited. -/
def setCanvasScale (s : Planner) (scale : ℚ) : Planner :=
  let s1 := { s with pixels_per_m := scale }
  { s1 with furniture_items := s1.furniture_items.map (fun it =>
      let it := { it with rect_w := it.furn.width_m * scale,
                          rect_h := it.furn.depth_m * scale }
      let it := it.setPos s1.snap_to_borders s1.room_width_m s1.room_depth_m
        (it.furn.x_m * scale) (it.furn.y_m * scale)
      let it := { it with scale := scale }
      { it with rotItem := it.furn.rotDeg }) }

/-- Embedding of the accepted branch of `RoomPlanner.add_door`
(lines 1539-1571): the door counter is advanced past every name
already present in the combined list, the dialog result is placed
centred on the bottom wall, appended to the scene, the `door_items`
tracking list and the list widget, and the counter incremented. -/
def addDoor (s : Planner) (doorData : DoorWindow) : Planner :=
  let c := nextCounter s.list_items true s.door_counter
  let x := (s.room_width_m - doorData.width_m) / 2
  let y := s.room_depth_m - doorData.thickness_m
  let item := (mkDoorItem doorData s.pixels_per_m).setPos
    (x * s.pixels_per_m) (y * s.pixels_per_m)
  { s with door_counter := c + 1,
           door_items := s.door_items ++ [item],
           list_items := s.list_items ++ [ListEntry.door doorData] }

/-- Embedding of the accepted branch of `RoomPlanner.add_window`
(lines 1573-1609): as `add_door` but centred on the top wall and
advancing the window counter. -/
def addWindow (s : Planner) (winData : DoorWindow) : Planner :=
  let c := nextCounter s.list_items false s.window_counter
  let x := (s.room_width_m - winData.width_m) / 2
  let item := (mkDoorItem winData s.pixels_per_m).setPos
    (x * s.pixels_per_m) 0
  { s with window_counter := c + 1,
           door_items := s.door_items ++ [item],
           list_items := s.list_items ++ [ListEntry.door winData] }

/-- Embedding of `RoomPlanner._update_room_unit_display`
(lines 1105-1120), fired when either room unit combo changes: only
when the tracked unit differs from the width combo's current unit is
the width spin value converted (old unit to metres to new unit,
stored through the spin box's range clamp); the depth spin value is
never touched, and the tracked unit becomes the width combo's unit. -/
def updateRoomUnitDisplay (wUnit dUnit : UnitSel) (wSpin dSpin : ℚ)
    (currentUnit : UnitSel) : ℚ × ℚ × UnitSel :=
  let wSpin :=
    if currentUnit ≠ wUnit then
      spinSetValue (fromMSel (toMSel wSpin currentUnit) wUnit)
    else wSpin
  (wSpin, dSpin, wUnit)

/-- Embedding of `RoomPlanner._update_furniture_unit_display`
(lines 1122-1136), the furniture-panel twin of
`updateRoomUnitDisplay` with the same structure. -/
def updateFurnitureUnitDisplay (wUnit dUnit : UnitSel) (wSpin dSpin : ℚ)
    (currentUnit : UnitSel) : ℚ × ℚ × UnitSel :=
  let wSpin :=
    if currentUnit ≠ wUnit then
      spinSetValue (fromMSel (toMSel wSpin currentUnit) wUnit)
    else wSpin
  (wSpin, dSpin, wUnit)

/-! ### Derived notions used by the statements -/

/-- The canonical fields of a furniture piece, as listed by the
persistence claims: name, dimensions, colour, position, rotation. -/
def canonicalFurn (it : FurnItem) :
    String × ℚ × ℚ × Colour × ℚ × ℚ × ℚ :=
  (it.furn.name, it.furn.width_m, it.furn.depth_m, it.furn.colour,
   it.furn.x_m, it.furn.y_m, it.furn.rotDeg)

/-- The canonical fields of a whole layout: room name, dimensions,
floor texture, border flag, and each piece's canonical fields. -/
def canonicalDoc (s : Planner) :
    String × ℚ × ℚ × String × Bool ×
      List (String × ℚ × ℚ × Colour × ℚ × ℚ × ℚ) :=
  (s.room_name, s.room_width_m, s.room_depth_m, s.current_floor_texture,
   s.show_room_border, s.furniture_items.map canonicalFurn)

/-- Every furniture item of the state stores a rotation normalised to
the interval from 0 inclusive to 360 exclusive. -/
def allRotNormed (s : Planner) : Prop :=
  ∀ it ∈ s.furniture_items, 0 ≤ it.furn.rotDeg ∧ it.furn.rotDeg < 360

/-- The document's room width and depth fields, where present, are
positive numbers.  Both halves are needed for the room-dimension
invariant to survive a load: a nonpositive number is stored as-is, and
a non-numeric value is likewise assigned to the attribute (putting it
into the ill-typed state) before the load aborts. -/
def docRoomDimsPos (doc : Option JVal) : Prop :=
  ∀ kvs r, doc = some (.jobj kvs) → jget kvs "room" = some (.jobj r) →
    (jget r "width_m" = none ∨
      ∃ q, jget r "width_m" = some (JVal.jnum q) ∧ 0 < q) ∧
    (jget r "depth_m" = none ∨
      ∃ q, jget r "depth_m" = some (JVal.jnum q) ∧ 0 < q)

/-- The rotation field of one furniture entry of a document, where
present as a number, lies in the interval from 0 inclusive to 360
exclusive. -/
def rotEntryOK (e : JVal) : Prop :=
  ∀ ekvs, e = JVal.jobj ekvs →
    ∀ q, jget ekvs "rotation" = some (JVal.jnum q) → 0 ≤ q ∧ q < 360

/-- The document's furniture rotations, where present as numbers, lie
in the interval from 0 inclusive to 360 exclusive. -/
def docRotNormed (doc : Option JVal) : Prop :=
  ∀ kvs xs, doc = some (.jobj kvs) →
    jget kvs "furniture" = some (.jarr xs) →
    ∀ e ∈ xs, rotEntryOK e

/-- Every colour component of every piece is a byte, as `QColor`
keeps them. -/
def allColoursBytes (s : Planner) : Prop :=
  ∀ it ∈ s.furniture_items,
    it.furn.colour.r < 256 ∧ it.furn.colour.g < 256 ∧ it.furn.colour.b < 256

/-! ### Concrete instances used by the statements -/

/-- A furniture colour, rendered by `QColor.name()` as `#0a141e`. -/
def sofaColour : Colour := ⟨10, 20, 30⟩

/-- A parsed layout file whose single furniture entry carries the
unnormalised rotation 400. -/
def rotationDoc : JVal :=
  .jobj [("furniture", .jarr
    [.jobj [("name", .jstr "Sofa"), ("width_m", .jnum 1),
            ("depth_m", .jnum 1), ("colour", .jstr "#0a141e"),
            ("x_m", .jnum 0), ("y_m", .jnum 0),
            ("rotation", .jnum 400)]])]

/-- A parsed layout file whose room width is the number -1. -/
def negativeRoomDoc : JVal :=
  .jobj [("room", .jobj [("width_m", .jnum (-1))])]

/-- A parsed layout file whose room width is the string `x`: the
loader assigns it to the width attribute before the widget update
raises `TypeError`. -/
def stringWidthDoc : JVal :=
  .jobj [("room", .jobj [("width_m", .jstr "x")])]

/-- A parsed layout file that is valid JSON but whose single furniture
entry is an empty object: reading `furn_data['name']` raises
`KeyError` in the middle of the load. -/
def badFurnitureDoc : JVal :=
  .jobj [("furniture", .jarr [.jobj []])]

/-- A parsed layout file whose room dimensions are positive numbers. -/
def goodRoomDoc : JVal :=
  .jobj [("room", .jobj [("width_m", .jnum 6), ("depth_m", .jnum 3)])]

/-- A furniture item standing one metre from the left wall at scale
60 px/m; its display state is consistent with its model state. -/
def tableItem : FurnItem :=
  { furn := ⟨"Table", 1, 1, ⟨0, 0, 0⟩, 1, 0, 0⟩, scale := 60,
    pos_x := 60, pos_y := 0, rect_w := 60, rect_h := 60, rotItem := 0 }

/-- A door of one metre width placed at scale 60 px/m. -/
def frontDoor : DoorItemG := mkDoorItem ⟨"Door 1", 1, 1/10, 0, 0, true⟩ 60

/-- A planner holding one furniture piece and one door, everything
drawn at the startup scale of 60 px/m. -/
def tableAndDoorState : Planner :=
  { initPlanner with
      furniture_items := [tableItem],
      door_items := [frontDoor],
      list_items := [ListEntry.furn tableItem.furn,
                     ListEntry.door frontDoor.door_window] }

/-- A planner holding one furniture piece named Sofa, obtained from
the startup state by the add-furniture handler. -/
def sofaState : Planner :=
  onAddFurniture initPlanner "Sofa" 1 1 UnitSel.m UnitSel.m sofaColour

/-- A furniture item standing one metre OUTSIDE the left wall
(`x_m = -1`), as free placement with snapping disabled allows. -/
def sofaOutside : FurnItem :=
  { furn := ⟨"Sofa", 1, 1, sofaColour, -1, 2, 0⟩, scale := 60,
    pos_x := -60, pos_y := 120, rect_w := 60, rect_h := 60, rotItem := 0 }

/-- A planner whose single furniture piece sits outside the room. -/
def outsideState : Planner :=
  { initPlanner with
      furniture_items := [sofaOutside],
      list_items := [ListEntry.furn sofaOutside.furn] }

/-- The startup planner with the snap-to-borders flag enabled. -/
def snappingPlanner : Planner := { initPlanner with snap_to_borders := true }

/-! ### Helper lemmas -/

/-- Distinct decimal digits render as distinct characters. -/
theorem digitChar_inj : ∀ d1 < 10, ∀ d2 < 10,
    digitChar d1 = digitChar d2 → d1 = d2 := by decide

/-- Mapping `digitChar` over digit lists is injective. -/
theorem map_digitChar_inj : ∀ l1 l2 : List Nat, (∀ d ∈ l1, d < 10) →
    (∀ d ∈ l2, d < 10) → l1.map digitChar = l2.map digitChar → l1 = l2 := by
  intro l1
  induction l1 with
  | nil => intro l2 _ _ h; cases l2 <;> simp_all
  | cons a t ih =>
    intro l2 h1 h2 h
    cases l2 with
    | nil => simp_all
    | cons b t2 =>
      simp only [List.map_cons, List.cons.injEq] at h
      have ha : a < 10 := h1 a (by simp)
      have hb : b < 10 := h2 b (by simp)
      have hab := digitChar_inj a ha b hb h.1
      subst hab
      have ht := ih t2 (fun d hd => h1 d (by simp [hd]))
        (fun d hd => h2 d (by simp [hd])) h.2
      simp [ht]

/-- Decimal rendering is injective away from zero. -/
theorem decString_injOn : ∀ a b : Nat, a ≠ 0 → b ≠ 0 →
    decString a = decString b → a = b := by
  intro a b ha hb h
  unfold decString at h
  simp only [ha, hb, if_false] at h
  have hdata := congrArg String.data h
  simp only at hdata
  have hmaps := map_digitChar_inj _ _
    (fun d hd => Nat.digits_lt_base (by norm_num) (List.mem_reverse.mp hd))
    (fun d hd => Nat.digits_lt_base (by norm_num) (List.mem_reverse.mp hd))
    hdata
  have hdigits : Nat.digits 10 a = Nat.digits 10 b :=
    List.reverse_injective hmaps
  calc a = Nat.ofDigits 10 (Nat.digits 10 a) := (Nat.ofDigits_digits 10 a).symm
    _ = Nat.ofDigits 10 (Nat.digits 10 b) := by rw [hdigits]
    _ = b := Nat.ofDigits_digits 10 b

/-- Category default names are injective in the counter, away from
zero. -/
theorem catName_injOn (isDoor : Bool) : ∀ a b : Nat, a ≠ 0 → b ≠ 0 →
    catName isDoor a = catName isDoor b → a = b := by
  intro a b ha hb h
  unfold catName at h
  have hdata := congrArg String.data h
  simp only [String.data_append] at hdata
  have := List.append_cancel_left hdata
  exact decString_injOn a b ha hb (congrArg String.mk this)

/-- Python modulo by a positive constant lands in the fundamental
interval. -/
theorem pymod_bounds (x m : ℚ) (hm : 0 < m) :
    0 ≤ pymod x m ∧ pymod x m < m := by
  have hfr : pymod x m = m * Int.fract (x / m) := by
    unfold pymod Int.fract
    field_simp
  constructor
  · rw [hfr]
    exact mul_nonneg hm.le (Int.fract_nonneg _)
  · rw [hfr]
    have := Int.fract_lt_one (x / m)
    nlinarith [Int.fract_nonneg (x / m)]

/-- Hex digit rendering and parsing are mutually inverse on digit
values. -/
theorem hexVal_hexDigitChar : ∀ d < 16, hexVal (hexDigitChar d) = d := by
  decide

/-- Parsing a rendered colour name recovers the colour, for byte
components. -/
theorem colourOfName_colourName (c : Colour) (hr : c.r < 256)
    (hg : c.g < 256) (hb : c.b < 256) :
    colourOfName (colourName c) = c := by
  obtain ⟨r, g, b⟩ := c
  simp only at hr hg hb
  have hv : ∀ n : Nat, n < 256 →
      16 * hexVal (hexDigitChar (n / 16)) + hexVal (hexDigitChar (n % 16)) = n := by
    intro n hn
    rw [hexVal_hexDigitChar _ (Nat.div_lt_of_lt_mul (by omega)),
        hexVal_hexDigitChar _ (Nat.mod_lt _ (by omega))]
    omega
  unfold colourName colourOfName
  simp only [if_pos rfl, if_true, Colour.mk.injEq]
  exact ⟨hv r hr, hv g hg, hv b hb⟩

/-- Membership characterisation of `_name_exists`. -/
theorem nameExists_iff_mem (entries : List ListEntry) (nm : String) :
    nameExists entries nm = true ↔ nm ∈ entries.map ListEntry.name := by
  unfold nameExists
  rw [List.any_eq_true]
  constructor
  · rintro ⟨e, he, hbeq⟩
    exact List.mem_map.mpr ⟨e, he, beq_iff_eq.mp hbeq⟩
  · intro hmem
    obtain ⟨e, he, hname⟩ := List.mem_map.mp hmem
    exact ⟨e, he, beq_iff_eq.mpr hname⟩

/-- If the probing loop stops on a taken name, every name it probed on
the way was taken as well. -/
theorem probeCounter_spec (entries : List ListEntry) (isDoor : Bool) :
    ∀ fuel c,
      nameExists entries (catName isDoor (probeCounter entries isDoor c fuel))
        = true →
      ∀ k ≤ fuel, nameExists entries (catName isDoor (c + k)) = true := by
  intro fuel
  induction fuel with
  | zero =>
    intro c h k hk
    have hk0 : k = 0 := Nat.le_zero.mp hk
    subst hk0
    simpa using h
  | succ n ih =>
    intro c h k hk
    cases hname : nameExists entries (catName isDoor c) with
    | true =>
      simp only [probeCounter, hname, if_true] at h
      cases k with
      | zero => simpa using hname
      | succ j =>
        have hj := ih (c + 1) h j (by omega)
        have harith : c + 1 + j = c + (j + 1) := by omega
        rwa [harith] at hj
    | false =>
      simp [probeCounter, hname] at h

/-! ### Claim C7: the door/window default-name allocator -/

/-- Claim C7.  For every call of the default-name allocator for
category door or window — the probing loop of `add_door`/`add_window`
run against the combined furniture-plus-opening lookup
`_name_exists` — the returned name `Door n` or `Window n` is absent
from the lookup at the time of the call.  The lookup `entries` and the
starting counter `c` are arbitrary (the source keeps `c` at 1 or
above), which covers any sequence of allocations interleaved with
insertions of the returned names; the allocator is a total function,
so a collision is resolved by probing, never by raising. -/
theorem C7_default_name_fresh (entries : List ListEntry) (isDoor : Bool)
    (c : Nat) (hc : 1 ≤ c) :
    nameExists entries (catName isDoor (nextCounter entries isDoor c))
      = false := by
  by_contra hne
  have h : nameExists entries
      (catName isDoor (probeCounter entries isDoor c (entries.length + 1)))
      = true := by
    have := Bool.not_eq_false
      (nameExists entries (catName isDoor (nextCounter entries isDoor c)))
    unfold nextCounter at hne
    revert hne
    cases nameExists entries
      (catName isDoor (probeCounter entries isDoor c (entries.length + 1)))
    · intro hne; exact absurd rfl hne
    · intro _; rfl
  have hall := probeCounter_spec entries isDoor (entries.length + 1) c h
  set L := (List.range (entries.length + 2)).map
    (fun k => catName isDoor (c + k)) with hL
  have hnodup : L.Nodup := by
    refine List.Nodup.map_on ?_ (List.nodup_range _)
    intro x _ y _ hxy
    have := catName_injOn isDoor (c + x) (c + y) (by omega) (by omega) hxy
    omega
  have hsub : L ⊆ entries.map ListEntry.name := by
    intro a ha
    obtain ⟨k, hk, rfl⟩ := List.mem_map.mp ha
    have hk2 : k ≤ entries.length + 1 := by
      have := List.mem_range.mp hk
      omega
    exact (nameExists_iff_mem entries _).mp (hall k hk2)
  have hlen := (hnodup.subperm hsub).length_le
  simp only [hL, List.length_map, List.length_range] at hlen
  omega

/-- Witness for C7: in a lookup already holding `Door 1`, `Door 2` and
a furniture piece called `Door 4`, probing from counter 1 lands on the
free name and that name is indeed absent. -/
theorem C7_default_name_fresh_witness :
    nameExists
      [ListEntry.door ⟨"Door 1", 1, 1/10, 0, 0, true⟩,
       ListEntry.door ⟨"Door 2", 1, 1/10, 0, 0, true⟩,
       ListEntry.furn ⟨"Door 4", 1, 1, ⟨0, 0, 0⟩, 0, 0, 0⟩]
      (catName true
        (nextCounter
          [ListEntry.door ⟨"Door 1", 1, 1/10, 0, 0, true⟩,
           ListEntry.door ⟨"Door 2", 1, 1/10, 0, 0, true⟩,
           ListEntry.furn ⟨"Door 4", 1, 1, ⟨0, 0, 0⟩, 0, 0, 0⟩]
          true 1)) = false :=
  C7_default_name_fresh _ true 1 (by norm_num)

/-! ### Claim C8: unit-conversion round trip -/

/-- Claim C8.  For every value `v` and every supported unit token
(`m`, `ft`, `in` — exactly the tokens `_UNIT_FACTORS` knows),
converting out of metres with `from_m` and back with `to_m` returns
`v`; in this rational embedding of the float arithmetic the identity
is exact, hence in particular within any floating tolerance. -/
theorem C8_unit_round_trip (v : ℚ) (u : String)
    (h : (unitFactors u).isSome) :
    (from_m v u).bind (fun x => to_m x u) = some v := by
  unfold from_m to_m unitFactors at *
  split_ifs at h ⊢ with h1 h2 h3
  · norm_num
  · norm_num
  · norm_num
  · simp at h

/-- Witness for C8: seven feet survive the round trip. -/
theorem C8_unit_round_trip_witness :
    (from_m 7 "ft").bind (fun x => to_m x "ft") = some 7 :=
  C8_unit_round_trip 7 "ft" (by decide)

/-! ### Claim C4: the snap-to-border boundary clamp -/

/-- Claim C4.  The boundary constraint of `FurnitureItem.itemChange`
(active when snap-to-border is enabled) maps any proposed display
position — negative and overflowing coordinates included — into the
room: per axis, if the item fits (`w ≤ W`, `h ≤ H`) the result lies in
`[0, W - w]` (resp. `[0, H - h]`), and if the item is larger than the
room along an axis the result saturates at 0 on that axis.  The two
axes are clamped independently with the unrotated rect dimensions, and
the function is total, so no error is ever raised. -/
theorem C4_boundary_clamp (W H w h px py : ℚ) :
    ((w ≤ W → 0 ≤ (clampPos W H w h px py).1 ∧
        (clampPos W H w h px py).1 ≤ W - w) ∧
      (W < w → (clampPos W H w h px py).1 = 0)) ∧
    ((h ≤ H → 0 ≤ (clampPos W H w h px py).2 ∧
        (clampPos W H w h px py).2 ≤ H - h) ∧
      (H < h → (clampPos W H w h px py).2 = 0)) := by
  unfold clampPos
  refine ⟨⟨fun hw => ⟨le_max_left _ _, ?_⟩, fun hw => ?_⟩,
          ⟨fun hh => ⟨le_max_left _ _, ?_⟩, fun hh => ?_⟩⟩
  · exact max_le (by linarith) (min_le_right _ _)
  · exact max_eq_left (le_of_lt (lt_of_le_of_lt (min_le_right _ _)
      (by linarith)))
  · exact max_le (by linarith) (min_le_right _ _)
  · exact max_eq_left (le_of_lt (lt_of_le_of_lt (min_le_right _ _)
      (by linarith)))

/-- Witness for C4: in a 10 by 8 room, a 3 by 2 item proposed at
(-5, 100) is clamped into bounds, and an item of width 3 in a room of
width 1 saturates at 0. -/
theorem C4_boundary_clamp_witness :
    (0 ≤ (clampPos 10 8 3 2 (-5) 100).1 ∧
      (clampPos 10 8 3 2 (-5) 100).1 ≤ 10 - 3) ∧
    (clampPos 1 8 3 2 5 1).1 = 0 :=
  ⟨(C4_boundary_clamp 10 8 3 2 (-5) 100).1.1 (by norm_num),
   (C4_boundary_clamp 1 8 3 2 5 1).1.2 (by norm_num)⟩

/-! ### Claim C9: unit-selector change converts only the width box -/

/-- Claim C9.  When the tracked unit of the room (resp. furniture)
dimension panel differs from the width combo's newly selected unit,
the handler converts only the width spin value (old unit to metres to
new unit, through the spin box's range clamp) and records the new
unit; the depth spin value is returned untouched — its number is
silently reinterpreted in the new unit. -/
theorem C9_unit_change_converts_only_width (wU dU : UnitSel)
    (wS dS : ℚ) (cur : UnitSel) (hne : cur ≠ wU) :
    updateRoomUnitDisplay wU dU wS dS cur
      = (spinSetValue (fromMSel (toMSel wS cur) wU), dS, wU) ∧
    updateFurnitureUnitDisplay wU dU wS dS cur
      = (spinSetValue (fromMSel (toMSel wS cur) wU), dS, wU) := by
  unfold updateRoomUnitDisplay updateFurnitureUnitDisplay
  simp [hne]

/-- Witness for C9: switching the width combo from feet to metres
turns a 16 ft width into 4.8768 m while a depth of 12 stays 12. -/
theorem C9_unit_change_converts_only_width_witness :
    updateRoomUnitDisplay UnitSel.m UnitSel.ft 16 12 UnitSel.ft
        = (spinSetValue (fromMSel (toMSel 16 UnitSel.ft) UnitSel.m), 12,
           UnitSel.m) ∧
    updateFurnitureUnitDisplay UnitSel.m UnitSel.ft 16 12 UnitSel.ft
        = (spinSetValue (fromMSel (toMSel 16 UnitSel.ft) UnitSel.m), 12,
           UnitSel.m) :=
  C9_unit_change_converts_only_width UnitSel.m UnitSel.ft 16 12 UnitSel.ft
    (by decide)

/-! ### Claim C10: the default furniture name -/

/-- Claim C10.  Adding a furniture piece with an empty name field
assigns the default name `Item {n}` with `n` the current list-widget
length plus one — a length that counts doors and windows alongside
furniture, since `list_items` holds every placed entity — and the
piece is appended with that name unconditionally: the statement
quantifies over every state, including those whose lookup already
contains that very name, so no uniqueness check is involved. -/
theorem C10_default_item_name (s : Planner) (wVal dVal : ℚ)
    (wUnit dUnit : UnitSel) (col : Colour) :
    (onAddFurniture s "" wVal dVal wUnit dUnit col).furniture_items
      = s.furniture_items ++
        [mkFurnItem ⟨"Item " ++ decString (s.list_items.length + 1),
          toMSel wVal wUnit, toMSel dVal dUnit, col, 0, 0, 0⟩
          s.pixels_per_m] ∧
    (onAddFurniture s "" wVal dVal wUnit dUnit col).list_items
      = s.list_items ++
        [ListEntry.furn ⟨"Item " ++ decString (s.list_items.length + 1),
          toMSel wVal wUnit, toMSel dVal dUnit, col, 0, 0, 0⟩] := by
  unfold onAddFurniture
  simp

/-! ### Claim C1: rescale -/

/-- Claim C1 fails on the code; this theorem evaluates the embedded
`_set_canvas_scale` at a failing input.  Rescaling the
furniture-plus-door state from 60 to 120 px/m (i) MUTATES model
space — the table's stored `x_m` doubles from 1 to 2, because
`setPos` runs while the item's `scale` attribute still holds the old
value, so `itemChange(ItemPositionHasChanged)` re-derives
`x_m = (1 * 120) / 60` — and (ii) never visits the tracked door items,
whose display rect stays 60 px although the model width at the new
scale is 120 px. -/
theorem C1_rescale_divergence :
    ((setCanvasScale tableAndDoorState 120).furniture_items.map
        (fun it => it.furn.x_m) = [2] ∧
      tableAndDoorState.furniture_items.map (fun it => it.furn.x_m) = [1]) ∧
    ((setCanvasScale tableAndDoorState 120).door_items
        = tableAndDoorState.door_items ∧
      (setCanvasScale tableAndDoorState 120).door_items.map
        (fun it => it.rect_w) = [60] ∧
      frontDoor.door_window.width_m * 120 = 120) := by
  refine ⟨⟨?_, ?_⟩, ?_, ?_, ?_⟩ <;>
    norm_num [setCanvasScale, tableAndDoorState, tableItem, frontDoor,
      mkDoorItem, initPlanner, FurnItem.setPos, clampPos]

/-! ### Claim C3: failed loads and the in-memory layout -/

/-- Claim C3 fails on the code; this theorem evaluates the embedded
`load_layout` at a failing input.  Loading the syntactically valid
document whose furniture entry is an empty object fails (the load
reports an error), yet the in-memory layout is NOT what it was before
the load: the handler ran `new_room()` and installed the document's
room defaults before validating the furniture entries, so the Sofa is
gone and the room dimensions have changed from 16 ft (3048/625 m) to
the 5 m default. -/
theorem C3_failed_load_corrupts_layout :
    (loadLayout sofaState (some badFurnitureDoc)).2 = false ∧
    (loadLayout sofaState (some badFurnitureDoc)).1.furniture_items = [] ∧
    sofaState.furniture_items.length = 1 ∧
    (loadLayout sofaState (some badFurnitureDoc)).1.room_width_m = 5 ∧
    sofaState.room_width_m = 3048 / 625 ∧ (3048 : ℚ) / 625 ≠ 5 := by
  refine ⟨?_, ?_, ?_, ?_, ?_, ?_⟩ <;>
    (try simp +decide only [loadLayout, loadRoomFields, assignStr,
      assignNum, assignBool, loadFurnPart, sofaState, badFurnitureDoc,
      onAddFurniture, initPlanner, newRoom, jget, decodeFurnList,
      decodeFurn, floorTextureKeys, mkFurnItem, toMSel, UnitSel.factor,
      List.find?, Option.map, Option.getD, List.isEmpty, List.length_cons,
      List.length_nil]) <;>
    norm_num

/-! ### Claim C5: room dimensions stay positive -/

/-- The furniture-loading tail leaves the room dimensions and the
ill-typed record untouched. -/
theorem loadFurnPart_room (s5 : Planner) (kvs : List (String × JVal)) :
    (loadFurnPart s5 kvs).1.room_width_m = s5.room_width_m ∧
    (loadFurnPart s5 kvs).1.room_depth_m = s5.room_depth_m ∧
    (loadFurnPart s5 kvs).1.ill_typed_attrs = s5.ill_typed_attrs := by
  unfold loadFurnPart
  dsimp only
  repeat' split
  all_goals exact ⟨rfl, rfl, rfl⟩

/-- The dimension fields installed by the room-assignment block are
exactly what the corresponding `assignNum` produces: the document
value when it is a number, the fallback when the field is absent, and
the stale previous value when the attribute went ill-typed. -/
theorem loadRoomFields_dims (s1 : Planner) (r : List (String × JVal))
    (nameDef : String) (widthDef depthDef : ℚ) :
    (loadRoomFields s1 r nameDef widthDef depthDef).1.room_width_m
      = (assignNum "room_width_m" ((jget r "width_m").getD (.jnum widthDef))
          s1.room_width_m).1 ∧
    (loadRoomFields s1 r nameDef widthDef depthDef).1.room_depth_m
      = (assignNum "room_depth_m" ((jget r "depth_m").getD (.jnum depthDef))
          s1.room_depth_m).1 :=
  ⟨rfl, rfl⟩

/-- An assignment whose field is absent (falling back to a positive
default) or holds a positive number installs a positive value. -/
theorem assignNum_pos (attr : String) (r : List (String × JVal))
    (k : String) (cur dflt : ℚ) (hdflt : 0 < dflt)
    (hok : jget r k = none ∨
      ∃ q, jget r k = some (JVal.jnum q) ∧ 0 < q) :
    0 < (assignNum attr ((jget r k).getD (JVal.jnum dflt)) cur).1 := by
  rcases hok with h | ⟨q, hq, hqpos⟩
  · rw [h]
    simpa [assignNum, Option.getD] using hdflt
  · rw [hq]
    simpa [assignNum, Option.getD] using hqpos

/-- The attribute a string assignment records, if any, is its own. -/
theorem assignStr_snd (attr : String) (j : JVal) (cur : String) :
    ∀ x ∈ (assignStr attr j cur).2, x = attr := by
  unfold assignStr
  split <;> simp

/-- The attribute a boolean assignment records, if any, is its own. -/
theorem assignBool_snd (attr : String) (j : JVal) (cur : Bool) :
    ∀ x ∈ (assignBool attr j cur).2, x = attr := by
  unfold assignBool
  split <;> simp

/-- A numeric assignment whose field is absent or a positive number
records no ill-typed attribute. -/
theorem assignNum_ok_snd (attr : String) (r : List (String × JVal))
    (k : String) (cur dflt : ℚ)
    (hok : jget r k = none ∨
      ∃ q, jget r k = some (JVal.jnum q) ∧ 0 < q) :
    (assignNum attr ((jget r k).getD (JVal.jnum dflt)) cur).2 = [] := by
  rcases hok with h | ⟨q, hq, _⟩
  · rw [h]
    simp [assignNum, Option.getD]
  · rw [hq]
    simp [assignNum, Option.getD]

/-- Under the dimension proviso the room-field assignments leave the
width and depth attributes genuinely numeric: neither joins the
ill-typed record (only the name, texture or border attribute can). -/
theorem loadRoomFields_dims_not_ill (s1 : Planner)
    (r : List (String × JVal)) (nameDef : String) (widthDef depthDef : ℚ)
    (hokw : jget r "width_m" = none ∨
      ∃ q, jget r "width_m" = some (JVal.jnum q) ∧ 0 < q)
    (hokd : jget r "depth_m" = none ∨
      ∃ q, jget r "depth_m" = some (JVal.jnum q) ∧ 0 < q)
    (h1 : "room_width_m" ∉ s1.ill_typed_attrs)
    (h2 : "room_depth_m" ∉ s1.ill_typed_attrs) :
    "room_width_m" ∉
      (loadRoomFields s1 r nameDef widthDef depthDef).1.ill_typed_attrs ∧
    "room_depth_m" ∉
      (loadRoomFields s1 r nameDef widthDef depthDef).1.ill_typed_attrs := by
  have hw0 := assignNum_ok_snd "room_width_m" r "width_m"
    s1.room_width_m widthDef hokw
  have hd0 := assignNum_ok_snd "room_depth_m" r "depth_m"
    s1.room_depth_m depthDef hokd
  have hall : ∀ x ∈ (loadRoomFields s1 r nameDef widthDef
        depthDef).1.ill_typed_attrs,
      x ∈ s1.ill_typed_attrs ∨ x = "room_name" ∨
      x = "current_floor_texture" ∨ x = "show_room_border" := by
    intro x hx
    unfold loadRoomFields at hx
    dsimp only at hx
    rw [hw0, hd0] at hx
    simp only [List.append_nil, List.mem_append, or_assoc] at hx
    rcases hx with hx | hx | hx | hx
    · exact Or.inl hx
    · exact Or.inr (Or.inl (assignStr_snd _ _ _ x hx))
    · exact Or.inr (Or.inr (Or.inl (assignStr_snd _ _ _ x hx)))
    · exact Or.inr (Or.inr (Or.inr (assignBool_snd _ _ _ x hx)))
  constructor
  · intro hmem
    rcases hall _ hmem with h | h | h | h
    · exact h1 h
    · exact absurd h (by decide)
    · exact absurd h (by decide)
    · exact absurd h (by decide)
  · intro hmem
    rcases hall _ hmem with h | h | h | h
    · exact h2 h
    · exact absurd h (by decide)
    · exact absurd h (by decide)
    · exact absurd h (by decide)

/-- The if-cascade following the room-field assignments of
`load_layout` preserves positive, genuinely numeric room
dimensions. -/
theorem loadTail_pos (fr : Planner × Bool) (kvs : List (String × JVal))
    (hw : 0 < fr.1.room_width_m) (hd : 0 < fr.1.room_depth_m)
    (hwi : "room_width_m" ∉ fr.1.ill_typed_attrs)
    (hdi : "room_depth_m" ∉ fr.1.ill_typed_attrs) :
    (0 < (if fr.2 then
          if fr.1.current_floor_texture ∈ floorTextureKeys then
            loadFurnPart fr.1 kvs
          else (fr.1, false)
        else (fr.1, false)).1.room_width_m ∧
     0 < (if fr.2 then
          if fr.1.current_floor_texture ∈ floorTextureKeys then
            loadFurnPart fr.1 kvs
          else (fr.1, false)
        else (fr.1, false)).1.room_depth_m) ∧
    ("room_width_m" ∉ (if fr.2 then
          if fr.1.current_floor_texture ∈ floorTextureKeys then
            loadFurnPart fr.1 kvs
          else (fr.1, false)
        else (fr.1, false)).1.ill_typed_attrs ∧
     "room_depth_m" ∉ (if fr.2 then
          if fr.1.current_floor_texture ∈ floorTextureKeys then
            loadFurnPart fr.1 kvs
          else (fr.1, false)
        else (fr.1, false)).1.ill_typed_attrs) := by
  split_ifs with h1 h2
  · have hroom := loadFurnPart_room fr.1 kvs
    refine ⟨⟨?_, ?_⟩, ?_, ?_⟩
    · rw [hroom.1]; exact hw
    · rw [hroom.2.1]; exact hd
    · rw [hroom.2.2]; exact hwi
    · rw [hroom.2.2]; exact hdi
  · exact ⟨⟨hw, hd⟩, hwi, hdi⟩
  · exact ⟨⟨hw, hd⟩, hwi, hdi⟩

/-- The room dimensions survive `load_layout` positive and genuinely
numeric provided the document room width/depth fields, where present,
are positive numbers (the defaults 5 and 4 are positive, and every
failure branch that fires before the assignments keeps previously
positive values). -/
theorem loadLayout_room_pos (s : Planner) (doc : Option JVal)
    (hw : 0 < s.room_width_m) (hd : 0 < s.room_depth_m)
    (hwi : "room_width_m" ∉ s.ill_typed_attrs)
    (hdi : "room_depth_m" ∉ s.ill_typed_attrs)
    (hdoc : docRoomDimsPos doc) :
    (0 < (loadLayout s doc).1.room_width_m ∧
     0 < (loadLayout s doc).1.room_depth_m) ∧
    ("room_width_m" ∉ (loadLayout s doc).1.ill_typed_attrs ∧
     "room_depth_m" ∉ (loadLayout s doc).1.ill_typed_attrs) := by
  cases doc with
  | none => exact ⟨⟨hw, hd⟩, hwi, hdi⟩
  | some j =>
    cases j with
    | jobj kvs =>
      unfold loadLayout
      dsimp only
      cases hr : jget kvs "room" with
      | none =>
        dsimp only
        have hni := loadRoomFields_dims_not_ill (newRoom s) []
          "My Room" 5 4 (Or.inl rfl) (Or.inl rfl) hwi hdi
        refine loadTail_pos _ kvs ?_ ?_ hni.1 hni.2
        · rw [(loadRoomFields_dims _ _ _ _ _).1]
          exact assignNum_pos _ _ _ _ _ (by norm_num) (Or.inl rfl)
        · rw [(loadRoomFields_dims _ _ _ _ _).2]
          exact assignNum_pos _ _ _ _ _ (by norm_num) (Or.inl rfl)
      | some jv =>
        cases jv with
        | jobj r =>
          dsimp only
          have hroom := hdoc kvs r rfl hr
          have hni := loadRoomFields_dims_not_ill (newRoom s) r
            "My Room" 5 4 hroom.1 hroom.2 hwi hdi
          refine loadTail_pos _ kvs ?_ ?_ hni.1 hni.2
          · rw [(loadRoomFields_dims _ _ _ _ _).1]
            exact assignNum_pos _ _ _ _ _ (by norm_num) hroom.1
          · rw [(loadRoomFields_dims _ _ _ _ _).2]
            exact assignNum_pos _ _ _ _ _ (by norm_num) hroom.2
        | jnum q => exact ⟨⟨hw, hd⟩, hwi, hdi⟩
        | jstr v => exact ⟨⟨hw, hd⟩, hwi, hdi⟩
        | jbool b => exact ⟨⟨hw, hd⟩, hwi, hdi⟩
        | jarr xs => exact ⟨⟨hw, hd⟩, hwi, hdi⟩
        | jnull => exact ⟨⟨hw, hd⟩, hwi, hdi⟩
    | jnum q => exact ⟨⟨hw, hd⟩, hwi, hdi⟩
    | jstr v => exact ⟨⟨hw, hd⟩, hwi, hdi⟩
    | jbool b => exact ⟨⟨hw, hd⟩, hwi, hdi⟩
    | jarr xs => exact ⟨⟨hw, hd⟩, hwi, hdi⟩
    | jnull => exact ⟨⟨hw, hd⟩, hwi, hdi⟩

/-- The if-cascade following the room-field assignments of
`_load_cached_room` preserves positive, genuinely numeric room
dimensions. -/
theorem loadCachedTail_pos (fr : Planner × Bool)
    (kvs : List (String × JVal))
    (hw : 0 < fr.1.room_width_m) (hd : 0 < fr.1.room_depth_m)
    (hwi : "room_width_m" ∉ fr.1.ill_typed_attrs)
    (hdi : "room_depth_m" ∉ fr.1.ill_typed_attrs) :
    (0 < (if fr.2 then (loadFurnPart fr.1 kvs).1 else fr.1).room_width_m ∧
     0 < (if fr.2 then (loadFurnPart fr.1 kvs).1 else fr.1).room_depth_m) ∧
    ("room_width_m" ∉
      (if fr.2 then (loadFurnPart fr.1 kvs).1 else fr.1).ill_typed_attrs ∧
     "room_depth_m" ∉
      (if fr.2 then (loadFurnPart fr.1 kvs).1 else fr.1).ill_typed_attrs)
    := by
  split_ifs with h1
  · have hroom := loadFurnPart_room fr.1 kvs
    refine ⟨⟨?_, ?_⟩, ?_, ?_⟩
    · rw [hroom.1]; exact hw
    · rw [hroom.2.1]; exact hd
    · rw [hroom.2.2]; exact hwi
    · rw [hroom.2.2]; exact hdi
  · exact ⟨⟨hw, hd⟩, hwi, hdi⟩

/-- The room dimensions survive `_load_cached_room` positive and
genuinely numeric under the same proviso; here the fallback dimensions
are the current (positive) ones. -/
theorem loadCachedRoom_room_pos (s : Planner) (blob : Option JVal)
    (hw : 0 < s.room_width_m) (hd : 0 < s.room_depth_m)
    (hwi : "room_width_m" ∉ s.ill_typed_attrs)
    (hdi : "room_depth_m" ∉ s.ill_typed_attrs)
    (hdoc : docRoomDimsPos blob) :
    (0 < (loadCachedRoom s blob).room_width_m ∧
     0 < (loadCachedRoom s blob).room_depth_m) ∧
    ("room_width_m" ∉ (loadCachedRoom s blob).ill_typed_attrs ∧
     "room_depth_m" ∉ (loadCachedRoom s blob).ill_typed_attrs) := by
  cases blob with
  | none => exact ⟨⟨hw, hd⟩, hwi, hdi⟩
  | some j =>
    cases j with
    | jobj kvs =>
      unfold loadCachedRoom
      dsimp only
      cases hr : jget kvs "room" with
      | none =>
        dsimp only
        have hni := loadRoomFields_dims_not_ill s []
          s.room_name s.room_width_m s.room_depth_m
          (Or.inl rfl) (Or.inl rfl) hwi hdi
        refine loadCachedTail_pos _ kvs ?_ ?_ hni.1 hni.2
        · rw [(loadRoomFields_dims _ _ _ _ _).1]
          exact assignNum_pos _ _ _ _ _ hw (Or.inl rfl)
        · rw [(loadRoomFields_dims _ _ _ _ _).2]
          exact assignNum_pos _ _ _ _ _ hd (Or.inl rfl)
      | some jv =>
        cases jv with
        | jobj r =>
          dsimp only
          have hroom := hdoc kvs r rfl hr
          have hni := loadRoomFields_dims_not_ill s r
            s.room_name s.room_width_m s.room_depth_m
            hroom.1 hroom.2 hwi hdi
          refine loadCachedTail_pos _ kvs ?_ ?_ hni.1 hni.2
          · rw [(loadRoomFields_dims _ _ _ _ _).1]
            exact assignNum_pos _ _ _ _ _ hw hroom.1
          · rw [(loadRoomFields_dims _ _ _ _ _).2]
            exact assignNum_pos _ _ _ _ _ hd hroom.2
        | jnum q => exact ⟨⟨hw, hd⟩, hwi, hdi⟩
        | jstr v => exact ⟨⟨hw, hd⟩, hwi, hdi⟩
        | jbool b => exact ⟨⟨hw, hd⟩, hwi, hdi⟩
        | jarr xs => exact ⟨⟨hw, hd⟩, hwi, hdi⟩
        | jnull => exact ⟨⟨hw, hd⟩, hwi, hdi⟩
    | jnum q => exact ⟨⟨hw, hd⟩, hwi, hdi⟩
    | jstr v => exact ⟨⟨hw, hd⟩, hwi, hdi⟩
    | jbool b => exact ⟨⟨hw, hd⟩, hwi, hdi⟩
    | jarr xs => exact ⟨⟨hw, hd⟩, hwi, hdi⟩
    | jnull => exact ⟨⟨hw, hd⟩, hwi, hdi⟩

/-- Counterexample to claim C5 as stated, in both failure modes the
loader leaves open.  Loading the syntactically valid document whose
room width is the number -1 succeeds (no positivity validation) and
leaves a room of width -1, which is not strictly positive; and loading
the document whose room width is the string `x` assigns that value to
the width attribute — putting it into the recorded ill-typed state, so
the attribute holds no positive number — before the aborted widget
update makes the load fail. -/
theorem C5_counterexample_negative_width_loads :
    ((loadLayout initPlanner (some negativeRoomDoc)).2 = true ∧
     (loadLayout initPlanner (some negativeRoomDoc)).1.room_width_m = -1 ∧
     ¬ (0 : ℚ) < -1) ∧
    ((loadLayout initPlanner (some stringWidthDoc)).2 = false ∧
     "room_width_m" ∈
       (loadLayout initPlanner (some stringWidthDoc)).1.ill_typed_attrs) := by
  refine ⟨⟨?_, ?_, ?_⟩, ?_, ?_⟩ <;>
    (try simp +decide only [loadLayout, loadRoomFields, assignStr,
      assignNum, assignBool, loadFurnPart, negativeRoomDoc, stringWidthDoc,
      initPlanner, newRoom, jget, decodeFurnList, floorTextureKeys,
      List.find?, Option.map, Option.getD, List.isEmpty]) <;>
    norm_num

/-- Claim C5, amended.  The room canonical width and depth are
strictly positive after document init (whose state has no ill-typed
attribute) and after apply-room-size (the spin boxes enforce values of
at least 1, and the handler touches no attribute type); after a load
from file or a cache restore they are positive — and the two
attributes still genuinely hold numbers — PROVIDED the document room
width and depth fields, where present, are positive numbers.  The
loader validates neither sign nor type: a nonpositive numeric width is
stored as-is, and a non-numeric width is likewise assigned to the
attribute, which then holds a value that is not a positive number at
all, before the aborted widget update stops the load (see the
counterexample for both modes). -/
theorem C5_room_dims_positive :
    (0 < initPlanner.room_width_m ∧ 0 < initPlanner.room_depth_m ∧
      initPlanner.ill_typed_attrs = []) ∧
    (∀ (s : Planner) (wVal dVal : ℚ) (wUnit dUnit : UnitSel),
      1 ≤ wVal → 1 ≤ dVal →
      (0 < (onRoomApply s wVal dVal wUnit dUnit).room_width_m ∧
       0 < (onRoomApply s wVal dVal wUnit dUnit).room_depth_m) ∧
      (onRoomApply s wVal dVal wUnit dUnit).ill_typed_attrs
        = s.ill_typed_attrs) ∧
    (∀ (s : Planner) (doc : Option JVal),
      0 < s.room_width_m → 0 < s.room_depth_m →
      "room_width_m" ∉ s.ill_typed_attrs →
      "room_depth_m" ∉ s.ill_typed_attrs →
      docRoomDimsPos doc →
      (0 < (loadLayout s doc).1.room_width_m ∧
       0 < (loadLayout s doc).1.room_depth_m) ∧
      ("room_width_m" ∉ (loadLayout s doc).1.ill_typed_attrs ∧
       "room_depth_m" ∉ (loadLayout s doc).1.ill_typed_attrs)) ∧
    (∀ (s : Planner) (blob : Option JVal),
      0 < s.room_width_m → 0 < s.room_depth_m →
      "room_width_m" ∉ s.ill_typed_attrs →
      "room_depth_m" ∉ s.ill_typed_attrs →
      docRoomDimsPos blob →
      (0 < (loadCachedRoom s blob).room_width_m ∧
       0 < (loadCachedRoom s blob).room_depth_m) ∧
      ("room_width_m" ∉ (loadCachedRoom s blob).ill_typed_attrs ∧
       "room_depth_m" ∉ (loadCachedRoom s blob).ill_typed_attrs)) := by
  refine ⟨⟨?_, ?_, rfl⟩, ?_, ?_, ?_⟩
  · norm_num [initPlanner, toMSel, UnitSel.factor]
  · norm_num [initPlanner, toMSel, UnitSel.factor]
  · intro s wVal dVal wUnit dUnit hwv hdv
    have hf : ∀ u : UnitSel, 0 < u.factor := by
      intro u; cases u <;> norm_num [UnitSel.factor]
    refine ⟨⟨?_, ?_⟩, rfl⟩
    · exact mul_pos (by linarith) (hf wUnit)
    · exact mul_pos (by linarith) (hf dUnit)
  · exact loadLayout_room_pos
  · exact loadCachedRoom_room_pos

/-- Witness for C5: loading a document with a 6 m by 3 m room into the
startup planner leaves positive dimensions with both dimension
attributes genuinely numeric. -/
theorem C5_room_dims_positive_witness :
    (0 < (loadLayout initPlanner (some goodRoomDoc)).1.room_width_m ∧
     0 < (loadLayout initPlanner (some goodRoomDoc)).1.room_depth_m) ∧
    ("room_width_m" ∉
       (loadLayout initPlanner (some goodRoomDoc)).1.ill_typed_attrs ∧
     "room_depth_m" ∉
       (loadLayout initPlanner (some goodRoomDoc)).1.ill_typed_attrs) :=
  C5_room_dims_positive.2.2.1 initPlanner (some goodRoomDoc)
    (by norm_num [initPlanner, toMSel, UnitSel.factor])
    (by norm_num [initPlanner, toMSel, UnitSel.factor])
    (by simp [initPlanner])
    (by simp [initPlanner])
    (by
      intro kvs r h1 h2
      injection h1 with h1
      simp only [goodRoomDoc] at h1
      injection h1 with h1
      subst h1
      simp +decide [jget, List.find?] at h2
      subst h2
      constructor
      · exact Or.inr ⟨6, by simp +decide [jget, List.find?], by norm_num⟩
      · exact Or.inr ⟨3, by simp +decide [jget, List.find?], by norm_num⟩)

/-! ### Claim C6: rotation normalisation -/

/-- The geometry protocol of `setPos` only rewrites the model
position; name, dimensions, colour and rotation are untouched. -/
theorem setPos_furn_invariants (snap : Bool) (roomW roomD : ℚ)
    (it : FurnItem) (px py : ℚ) :
    (it.setPos snap roomW roomD px py).furn.name = it.furn.name ∧
    (it.setPos snap roomW roomD px py).furn.width_m = it.furn.width_m ∧
    (it.setPos snap roomW roomD px py).furn.depth_m = it.furn.depth_m ∧
    (it.setPos snap roomW roomD px py).furn.colour = it.furn.colour ∧
    (it.setPos snap roomW roomD px py).furn.rotDeg = it.furn.rotDeg := by
  unfold FurnItem.setPos
  dsimp only
  repeat' split
  all_goals exact ⟨rfl, rfl, rfl, rfl, rfl⟩

/-- A decoded furniture entry has its rotation in range when the
entry's rotation field is in range or absent. -/
theorem decodeFurn_rot (ppm : ℚ) (snap : Bool) (roomW roomD : ℚ)
    (j : JVal) (it : FurnItem) (hj : rotEntryOK j)
    (h : decodeFurn ppm snap roomW roomD j = some it) :
    0 ≤ it.furn.rotDeg ∧ it.furn.rotDeg < 360 := by
  cases j with
  | jobj ekvs =>
    unfold decodeFurn at h
    dsimp only at h
    repeat' split at h
    any_goals cases h
    all_goals rw [(setPos_furn_invariants snap roomW roomD _ _ _).2.2.2.2]
    all_goals dsimp only [mkFurnItem]
    · exact hj ekvs rfl _ (by assumption)
    · norm_num
  | jnum q => cases h
  | jstr v => cases h
  | jbool b => cases h
  | jarr xs => cases h
  | jnull => cases h

/-- Every item decoded from a furniture array has its rotation in
range when every entry's rotation field is in range or absent. -/
theorem decodeFurnList_rot (ppm : ℚ) (snap : Bool) (roomW roomD : ℚ) :
    ∀ xs : List JVal, (∀ e ∈ xs, rotEntryOK e) →
      ∀ it ∈ (decodeFurnList ppm snap roomW roomD xs).1,
        0 ≤ it.furn.rotDeg ∧ it.furn.rotDeg < 360 := by
  intro xs
  induction xs with
  | nil => intro _ it hit; simp [decodeFurnList] at hit
  | cons x t ih =>
    intro hall it hit
    unfold decodeFurnList at hit
    cases hx : decodeFurn ppm snap roomW roomD x with
    | none => rw [hx] at hit; simp at hit
    | some it2 =>
      rw [hx] at hit
      simp only [List.mem_cons] at hit
      cases hit with
      | inl h =>
        subst h
        exact decodeFurn_rot ppm snap roomW roomD x it
          (hall x (by simp)) hx
      | inr h =>
        exact ih (fun e he => hall e (by simp [he])) it h

/-- The room-field assignments touch nothing besides the five room
attributes and the ill-typed record. -/
theorem loadRoomFields_inv (s1 : Planner) (r : List (String × JVal))
    (nameDef : String) (widthDef depthDef : ℚ) :
    (loadRoomFields s1 r nameDef widthDef depthDef).1.furniture_items
      = s1.furniture_items ∧
    (loadRoomFields s1 r nameDef widthDef depthDef).1.pixels_per_m
      = s1.pixels_per_m ∧
    (loadRoomFields s1 r nameDef widthDef depthDef).1.snap_to_borders
      = s1.snap_to_borders :=
  ⟨rfl, rfl, rfl⟩

/-- The rotation invariant survives the furniture-loading tail. -/
theorem loadFurnPart_rot (s5 : Planner) (kvs : List (String × JVal))
    (h2 : ∀ it ∈ s5.furniture_items, 0 ≤ it.furn.rotDeg ∧ it.furn.rotDeg < 360)
    (hfurn : ∀ xs, jget kvs "furniture" = some (JVal.jarr xs) →
      ∀ e ∈ xs, rotEntryOK e) :
    ∀ it ∈ (loadFurnPart s5 kvs).1.furniture_items,
      0 ≤ it.furn.rotDeg ∧ it.furn.rotDeg < 360 := by
  unfold loadFurnPart
  dsimp only
  cases hfv : jget kvs "furniture" with
  | none =>
    dsimp only
    intro it hit
    rcases List.mem_append.mp hit with hleft | hright
    · exact h2 it hleft
    · simp [decodeFurnList] at hright
  | some fv =>
    cases fv with
    | jarr xs =>
      dsimp only
      intro it hit
      rcases List.mem_append.mp hit with hleft | hright
      · exact h2 it hleft
      · exact decodeFurnList_rot _ _ _ _ xs (hfurn xs hfv) it hright
    | jnum q => dsimp only; intro it hit; exact h2 it hit
    | jstr v => dsimp only; intro it hit; exact h2 it hit
    | jbool b => dsimp only; intro it hit; exact h2 it hit
    | jobj o => dsimp only; intro it hit; exact h2 it hit
    | jnull => dsimp only; intro it hit; exact h2 it hit

/-- The rotation invariant survives `load_layout` for documents whose
rotation fields are in range or absent. -/
theorem loadLayout_rot (s : Planner) (doc : Option JVal)
    (hs : allRotNormed s) (hdoc : docRotNormed doc) :
    allRotNormed (loadLayout s doc).1 := by
  cases doc with
  | none => exact hs
  | some j =>
    cases j with
    | jobj kvs =>
      unfold loadLayout
      dsimp only
      cases hr : jget kvs "room" with
      | none =>
        dsimp only
        have hempty : allRotNormed
            (loadRoomFields (newRoom s) [] "My Room" 5 4).1 := by
          intro it hit
          rw [(loadRoomFields_inv _ _ _ _ _).1] at hit
          simp [newRoom] at hit
        split_ifs with h1 h2
        · exact loadFurnPart_rot _ kvs hempty
            (fun xs hxs => hdoc kvs xs rfl hxs)
        · exact hempty
        · exact hempty
      | some jv =>
        cases jv with
        | jobj r =>
          dsimp only
          have hempty : allRotNormed
              (loadRoomFields (newRoom s) r "My Room" 5 4).1 := by
            intro it hit
            rw [(loadRoomFields_inv _ _ _ _ _).1] at hit
            simp [newRoom] at hit
          split_ifs with h1 h2
          · exact loadFurnPart_rot _ kvs hempty
              (fun xs hxs => hdoc kvs xs rfl hxs)
          · exact hempty
          · exact hempty
        | jnum q => intro it hit; simp [newRoom] at hit
        | jstr v => intro it hit; simp [newRoom] at hit
        | jbool b => intro it hit; simp [newRoom] at hit
        | jarr xs => intro it hit; simp [newRoom] at hit
        | jnull => intro it hit; simp [newRoom] at hit
    | jnum q => intro it hit; simp [loadLayout, newRoom] at hit
    | jstr v => intro it hit; simp [loadLayout, newRoom] at hit
    | jbool b => intro it hit; simp [loadLayout, newRoom] at hit
    | jarr xs => intro it hit; simp [loadLayout, newRoom] at hit
    | jnull => intro it hit; simp [loadLayout, newRoom] at hit

/-- The rotation invariant survives `_load_cached_room` for cache
blobs whose rotation fields are in range or absent. -/
theorem loadCachedRoom_rot (s : Planner) (blob : Option JVal)
    (hs : allRotNormed s) (hdoc : docRotNormed blob) :
    allRotNormed (loadCachedRoom s blob) := by
  cases blob with
  | none => exact hs
  | some j =>
    cases j with
    | jobj kvs =>
      unfold loadCachedRoom
      dsimp only
      cases hr : jget kvs "room" with
      | none =>
        dsimp only
        have hfull : allRotNormed (loadRoomFields s []
            s.room_name s.room_width_m s.room_depth_m).1 := by
          intro it hit
          rw [(loadRoomFields_inv _ _ _ _ _).1] at hit
          exact hs it hit
        split_ifs with h1
        · exact loadFurnPart_rot _ kvs hfull
            (fun xs hxs => hdoc kvs xs rfl hxs)
        · exact hfull
      | some jv =>
        cases jv with
        | jobj r =>
          dsimp only
          have hfull : allRotNormed (loadRoomFields s r
              s.room_name s.room_width_m s.room_depth_m).1 := by
            intro it hit
            rw [(loadRoomFields_inv _ _ _ _ _).1] at hit
            exact hs it hit
          split_ifs with h1
          · exact loadFurnPart_rot _ kvs hfull
              (fun xs hxs => hdoc kvs xs rfl hxs)
          · exact hfull
        | jnum q => exact hs
        | jstr v => exact hs
        | jbool b => exact hs
        | jarr xs => exact hs
        | jnull => exact hs
    | jnum q => exact hs
    | jstr v => exact hs
    | jbool b => exact hs
    | jarr xs => exact hs
    | jnull => exact hs

/-- Counterexample to claim C6 as stated: loading the syntactically
valid document whose furniture rotation is 400 succeeds and stores the
rotation 400 unnormalised, outside the interval from 0 to 360. -/
theorem C6_counterexample_unnormalised_load :
    (loadLayout initPlanner (some rotationDoc)).2 = true ∧
    (loadLayout initPlanner (some rotationDoc)).1.furniture_items.map
      (fun it => it.furn.rotDeg) = [400] ∧
    ¬ (400 : ℚ) < 360 := by
  refine ⟨?_, ?_, ?_⟩ <;>
    (try simp +decide only [loadLayout, loadRoomFields, assignStr,
      assignNum, assignBool, loadFurnPart, rotationDoc, initPlanner,
      newRoom, jget, decodeFurnList, decodeFurn, mkFurnItem,
      FurnItem.setPos, clampPos, floorTextureKeys, List.find?, Option.map,
      Option.getD, List.isEmpty, zero_mul, List.map]) <;>
    norm_num

/-- Claim C6, amended.  The stored rotation of every furniture piece
lies in the interval from 0 inclusive to 360 exclusive after add
(created at 0), rotate-by-90 (normalised by the Python modulo,
whatever the previous value), copy (the clipboard carries the source
rotation verbatim) and paste of an in-range clipboard; after a load
from file or a cache restore it lies in range PROVIDED every rotation
field of the document is in range or absent (the default is 0) — the
loader stores rotation values unnormalised, so an adversarial document
defeats the invariant (see the counterexample). -/
theorem C6_rotation_normalised :
    (∀ (s : Planner) (nameField : String) (wVal dVal : ℚ)
        (wUnit dUnit : UnitSel) (col : Colour), allRotNormed s →
      allRotNormed (onAddFurniture s nameField wVal dVal wUnit dUnit col)) ∧
    (∀ it : FurnItem,
      0 ≤ it.rotate90.furn.rotDeg ∧ it.rotate90.furn.rotDeg < 360) ∧
    (∀ f : Furniture, (copyFurniture f).rotDeg = f.rotDeg) ∧
    (∀ (s : Planner) (cb : Clipboard), 0 ≤ cb.rotDeg → cb.rotDeg < 360 →
      allRotNormed s → allRotNormed (pasteFurnitureCenter s cb)) ∧
    (∀ (s : Planner) (doc : Option JVal), allRotNormed s →
      docRotNormed doc → allRotNormed (loadLayout s doc).1) ∧
    (∀ (s : Planner) (blob : Option JVal), allRotNormed s →
      docRotNormed blob → allRotNormed (loadCachedRoom s blob)) := by
  refine ⟨?_, ?_, ?_, ?_, ?_, ?_⟩
  · intro s nameField wVal dVal wUnit dUnit col hs it hit
    simp only [onAddFurniture, List.mem_append, List.mem_singleton] at hit
    rcases hit with h | h
    · exact hs it h
    · subst h; norm_num [mkFurnItem]
  · intro it
    simp only [FurnItem.rotate90]
    exact pymod_bounds _ 360 (by norm_num)
  · intro f; rfl
  · intro s cb h0 h360 hs it hit
    simp only [pasteFurnitureCenter, List.mem_append, List.mem_singleton]
      at hit
    rcases hit with h | h
    · exact hs it h
    · subst h
      dsimp only
      rw [(setPos_furn_invariants _ _ _ _ _ _).2.2.2.2]
      dsimp only [mkFurnItem]
      exact ⟨h0, h360⟩
  · exact loadLayout_rot
  · exact loadCachedRoom_rot

/-- Witness for C6: pasting a clipboard rotated by 90 degrees into the
startup planner keeps every stored rotation in range. -/
theorem C6_rotation_normalised_witness :
    allRotNormed
      (pasteFurnitureCenter initPlanner ⟨"Sofa", 1, 1, sofaColour, 90⟩) :=
  C6_rotation_normalised.2.2.2.1 initPlanner ⟨"Sofa", 1, 1, sofaColour, 90⟩
    (by norm_num) (by norm_num)
    (by intro it hit; simp [initPlanner] at hit)

/-! ### Claim C2: save/load round trip -/

/-- With snapping disabled, placing a freshly constructed item at its
own model position (times the scale) leaves the model record intact:
the geometry protocol re-derives exactly the coordinates it was
given. -/
theorem setPos_false_furn (roomW roomD : ℚ) (f : Furniture) (ppm : ℚ)
    (hppm : ppm ≠ 0) :
    ((mkFurnItem f ppm).setPos false roomW roomD
      (f.x_m * ppm) (f.y_m * ppm)).furn = f := by
  obtain ⟨nm, w, d, c, x, y, r⟩ := f
  unfold FurnItem.setPos mkFurnItem
  dsimp only
  split
  · rfl
  · simp only [Bool.false_eq_true, if_false]
    split
    · rfl
    · have h1 : x * ppm / ppm = x := by field_simp
      have h2 : y * ppm / ppm = y := by field_simp
      simp [h1, h2]

/-- Decoding an encoded furniture item recovers the furniture record,
for byte colour components and a nonzero scale, when snapping is
disabled. -/
theorem decodeFurn_encodeFurn (ppm roomW roomD : ℚ) (hppm : ppm ≠ 0)
    (it : FurnItem) (hr : it.furn.colour.r < 256)
    (hg : it.furn.colour.g < 256) (hb : it.furn.colour.b < 256) :
    (decodeFurn ppm false roomW roomD (encodeFurn it)).map
      (fun it2 => it2.furn) = some it.furn := by
  unfold encodeFurn decodeFurn
  simp +decide [jget, List.find?]
  have hcol := colourOfName_colourName it.furn.colour hr hg hb
  rw [hcol]
  have := setPos_false_furn roomW roomD it.furn ppm hppm
  exact this

/-- Decoding an encoded furniture array recovers every furniture
record, and succeeds, under the same provisos. -/
theorem decodeFurnList_encode (ppm roomW roomD : ℚ) (hppm : ppm ≠ 0) :
    ∀ l : List FurnItem,
      (∀ it ∈ l, it.furn.colour.r < 256 ∧ it.furn.colour.g < 256 ∧
        it.furn.colour.b < 256) →
      (decodeFurnList ppm false roomW roomD (l.map encodeFurn)).1.map
          (fun it2 => it2.furn) = l.map (fun it => it.furn) ∧
      (decodeFurnList ppm false roomW roomD (l.map encodeFurn)).2 = true := by
  intro l
  induction l with
  | nil => intro _; simp [decodeFurnList]
  | cons x t ih =>
    intro hall
    have hx := decodeFurn_encodeFurn ppm roomW roomD hppm x
      (hall x (by simp)).1 (hall x (by simp)).2.1 (hall x (by simp)).2.2
    obtain ⟨it2, hit2, hfurn⟩ : ∃ it2,
        decodeFurn ppm false roomW roomD (encodeFurn x) = some it2 ∧
        it2.furn = x.furn := by
      cases hd : decodeFurn ppm false roomW roomD (encodeFurn x) with
      | none => rw [hd] at hx; simp at hx
      | some y => rw [hd] at hx; simp at hx; exact ⟨y, rfl, hx⟩
    have iht := ih (fun e he => hall e (by simp [he]))
    simp only [List.map_cons, decodeFurnList, hit2]
    exact ⟨by simp [hfurn, iht.1], iht.2⟩

/-- Claim C2, amended.  For any valid layout state (byte colour
components, a floor texture from the supported set), saving and then
loading back into a planner whose snap-to-borders flag is disabled and
whose scale is nonzero succeeds and reproduces every canonical field —
room name, width, depth, floor texture, border flag, and each piece's
name, width, depth, colour, x, y and rotation — exactly, hence in
particular within the 1e-9 tolerance.  The snapping proviso is forced:
with the flag enabled the loader's placement `setPos` runs positions
through the boundary clamp (see the counterexample). -/
theorem C2_round_trip (s_src s_dst : Planner)
    (hsnap : s_dst.snap_to_borders = false)
    (hppm : s_dst.pixels_per_m ≠ 0)
    (htex : s_src.current_floor_texture ∈ floorTextureKeys)
    (hcol : allColoursBytes s_src) :
    (loadLayout s_dst (some (saveLayoutData s_src))).2 = true ∧
    canonicalDoc (loadLayout s_dst (some (saveLayoutData s_src))).1
      = canonicalDoc s_src := by
  have hdec := decodeFurnList_encode s_dst.pixels_per_m
    s_src.room_width_m s_src.room_depth_m hppm s_src.furniture_items
    (fun it hit => hcol it hit)
  unfold loadLayout saveLayoutData loadRoomFields loadFurnPart
  simp +decide [jget, List.find?, htex, newRoom, hsnap, canonicalDoc,
    canonicalFurn, List.map_map, assignStr, assignNum, assignBool]
  have hmm : ∀ L : List FurnItem, List.map canonicalFurn L
      = List.map (fun fn : Furniture =>
          (fn.name, fn.width_m, fn.depth_m, fn.colour, fn.x_m, fn.y_m,
           fn.rotDeg)) (List.map (fun it2 => it2.furn) L) := by
    intro L
    rw [List.map_map]
    rfl
  refine ⟨hdec.2, ?_⟩
  rw [hmm, hmm, hdec.1]

/-- Witness for C2: the layout holding one Sofa at x = -1 m saved and
loaded back into the startup planner (snapping off) reproduces every
canonical field. -/
theorem C2_round_trip_witness :
    (loadLayout initPlanner (some (saveLayoutData outsideState))).2 = true ∧
    canonicalDoc (loadLayout initPlanner
        (some (saveLayoutData outsideState))).1 = canonicalDoc outsideState :=
  C2_round_trip outsideState initPlanner rfl
    (by norm_num [initPlanner])
    (by simp +decide [outsideState, initPlanner, floorTextureKeys])
    (by
      intro it hit
      simp only [outsideState, List.mem_singleton] at hit
      subst hit
      norm_num [sofaOutside, sofaColour])

/-- Counterexample to claim C2 as stated: with the snap-to-borders
flag enabled at load time, the very same saved layout comes back with
the Sofa's x position clamped from -1 m to 0 m — a canonical-field
difference of a full metre, far beyond the 1e-9 tolerance — because
the loader places items through `setPos`, which runs the boundary
clamp. -/
theorem C2_counterexample_snap_clamps_load :
    (loadLayout snappingPlanner (some (saveLayoutData outsideState))).2
      = true ∧
    (loadLayout snappingPlanner
        (some (saveLayoutData outsideState))).1.furniture_items.map
      (fun it => it.furn.x_m) = [0] ∧
    outsideState.furniture_items.map (fun it => it.furn.x_m) = [-1] ∧
    ¬ |(0 : ℚ) - (-1)| ≤ 1 / 1000000000 := by
  refine ⟨?_, ?_, ?_, ?_⟩
  · simp +decide [loadLayout, loadRoomFields, assignStr, assignNum,
      assignBool, loadFurnPart, saveLayoutData, encodeFurn, outsideState,
      snappingPlanner, initPlanner, sofaOutside, sofaColour, newRoom, jget,
      List.find?, decodeFurnList, decodeFurn, floorTextureKeys, mkFurnItem,
      colourName]
    try norm_num [FurnItem.setPos, clampPos, min_def, max_def, toMSel,
      UnitSel.factor]
  · simp +decide [loadLayout, loadRoomFields, assignStr, assignNum,
      assignBool, loadFurnPart, saveLayoutData, encodeFurn, outsideState,
      snappingPlanner, initPlanner, sofaOutside, sofaColour, newRoom, jget,
      List.find?, decodeFurnList, decodeFurn, floorTextureKeys, mkFurnItem,
      colourName]
    try norm_num [FurnItem.setPos, clampPos, min_def, max_def, toMSel,
      UnitSel.factor]
  · norm_num [outsideState, sofaOutside]
  · norm_num

end HomelyHelper
